import Mathlib

/-!
# Verification of the student finance tracker front-end view-model

Shallow embedding of `src/src/App.jsx`: the transaction data model, the
client-side validation, the list/add/delete handlers (with network
responses passed in explicitly), the derived aggregates, and the
localStorage-backed user-id initializer. Amounts are modelled as exact
rationals (JavaScript numbers idealized to ℚ).
-/

namespace FinanceApp

/-- A transaction as held in the in-memory list (shape of the server's
JSON records: id, description, amount, type, userId, timestamp). -/
structure Transaction where
  id : Nat
  description : String
  amount : ℚ
  type : String
  userId : String
  timestamp : Nat
deriving DecidableEq, Repr

/-- The component state: the `useState` variables of `App`. -/
structure AppState where
  description : String
  amount : String
  type : String
  transactions : List Transaction
  loading : Bool
  message : String
  showMessage : Bool
  userId : String
deriving DecidableEq, Repr

/-- Constant `API_BASE_URL` from App.jsx line 27. -/
def API_BASE_URL : String := "http://localhost:5000/api"

/-! ## String helpers: JS `String.prototype.includes` -/

/-- Test `leadsWith pat s`: `pat` is an initial segment of `s` (char lists). -/
def leadsWith : List Char → List Char → Bool
  | [], _ => true
  | _ :: _, [] => false
  | c :: cs, d :: ds => c == d && leadsWith cs ds

/-- Test `hasSub pat s`: `pat` occurs contiguously inside `s`. -/
def hasSub (pat : List Char) : List Char → Bool
  | [] => leadsWith pat []
  | c :: cs => leadsWith pat (c :: cs) || hasSub pat cs

/-- Model of JavaScript `String.prototype.includes`. -/
def includes (s pat : String) : Bool := hasSub pat.data s.data

/-- JS whitespace (the characters relevant to form input). -/
def isSpaceChar (c : Char) : Bool :=
  c == ' ' || c == '\t' || c == '\n' || c == '\r' || c == '\x0b' || c == '\x0c'

/-- Model of JavaScript `String.prototype.trim`: strip whitespace from
both ends. -/
def jsTrim (s : String) : String :=
  ⟨((s.data.dropWhile isSpaceChar).reverse.dropWhile isSpaceChar).reverse⟩

/-! ## JS `parseFloat` model

`parseFloat` skips leading whitespace, then reads the longest prefix of
the form `[+-]? digits [. digits] [eE [+-]? digits]`; if no digit is
read the result is NaN (modelled as `none`). -/

/-- Split off the maximal run of leading decimal digits. -/
def takeDigits : List Char → List Char × List Char
  | [] => ([], [])
  | c :: cs =>
    if c.isDigit then
      let (ds, rest) := takeDigits cs
      (c :: ds, rest)
    else ([], c :: cs)

/-- Value of a digit string read in base 10. -/
def digitsToNat (ds : List Char) : Nat :=
  ds.foldl (fun a c => a * 10 + (c.toNat - 48)) 0

/-- The syntactic pieces of a parsed numeric literal: sign, integer
digits, fractional digits (with their count), decimal exponent. -/
structure ParsedNum where
  sign : Int
  intPart : Nat
  fracPart : Nat
  fracLen : Nat
  exp : Int
deriving DecidableEq, Repr

/-- Longest-valid-prefix scan of JS `parseFloat`, over the integer
representation (no rational arithmetic, so it evaluates by `decide`). -/
def jsParseFloatAux (s : String) : Option ParsedNum :=
  let cs := s.data.dropWhile fun c => c == ' ' || c == '\t' || c == '\n' || c == '\r'
  let signAndRest : Int × List Char :=
    match cs with
    | '-' :: rest => (-1, rest)
    | '+' :: rest => (1, rest)
    | _ => (1, cs)
  let (intDs, cs1) := takeDigits signAndRest.2
  let fracAndRest : List Char × List Char :=
    match cs1 with
    | '.' :: rest => takeDigits rest
    | _ => ([], cs1)
  let fracDs := fracAndRest.1
  let cs2 := fracAndRest.2
  if intDs = [] ∧ fracDs = [] then none
  else
    let exp : Int :=
      match cs2 with
      | e :: rest =>
        if e == 'e' || e == 'E' then
          let esignAndRest : Int × List Char :=
            match rest with
            | '-' :: r => (-1, r)
            | '+' :: r => (1, r)
            | _ => (1, rest)
          let eds := (takeDigits esignAndRest.2).1
          if eds = [] then 0 else esignAndRest.1 * digitsToNat eds
        else 0
      | [] => 0
    some ⟨signAndRest.1, digitsToNat intDs, digitsToNat fracDs, fracDs.length, exp⟩

/-- Numeric value of a parsed literal. -/
def ParsedNum.toRat (p : ParsedNum) : ℚ :=
  (p.sign : ℚ) * ((p.intPart : ℚ) + (p.fracPart : ℚ) / (10 : ℚ) ^ p.fracLen) * (10 : ℚ) ^ p.exp

/-- Model of JavaScript `parseFloat` on decimal strings; `none` is NaN. -/
def jsParseFloat (s : String) : Option ℚ :=
  (jsParseFloatAux s).map ParsedNum.toRat

/-! ## Network responses and requests

Handlers are embedded as pure functions taking the outcome of each
network round trip as an argument; the list of `Request`s they emit
records which network calls were made. -/

/-- Body of the `POST /api/transactions` creation request (App.jsx line 85). -/
structure CreateBody where
  description : String
  amount : ℚ
  type : String
  userId : String
deriving DecidableEq, Repr

/-- A network call issued by a handler. -/
inductive Request where
  | list (userId : String)
  | create (body : CreateBody)
  | remove (id : Nat)
deriving DecidableEq, Repr

/-- Outcome of the `GET /api/transactions/{userId}` round trip, as seen
by `fetchTransactions`: transport failure (the rejection's message),
non-2xx response (status and `response.text()` body), or parsed data. -/
inductive ListResp where
  | netErr (msg : String)
  | fail (status : Nat) (body : String)
  | ok (data : List Transaction)
deriving DecidableEq, Repr

/-- Outcome of a mutating (POST/DELETE) round trip: transport failure,
non-2xx response (status and the optional `error` field of the JSON
error body), or success. -/
inductive MutResp where
  | netErr (msg : String)
  | fail (status : Nat) (errorField : Option String)
  | ok
deriving DecidableEq, Repr

/-- Whether a list refresh failed (either way). -/
def ListResp.failed : ListResp → Bool
  | .ok _ => false
  | _ => true

/-! ## fetchTransactions (App.jsx lines 30-55) -/

/-- The message thrown on a non-ok List response (line 39):
the status and the raw response text, with a fallback note when the
text is empty. -/
def httpErrorText (status : Nat) (body : String) : String :=
  "HTTP error! Status: " ++ toString status ++ ". Message: " ++
    (if body = "" then "No message provided." else body)

/-- The transport-failure notice of `fetchTransactions` (line 47). -/
def connectMsgFetch : String :=
  "Could not connect to the backend server at " ++ API_BASE_URL ++
    ". Please ensure your backend (server.js) is running in a separate terminal."

/-- The catch block of `fetchTransactions` (lines 43-48): pick the user
message from the caught error's message. -/
def fetchErrorMessage (emsg : String) : String :=
  if includes emsg "Failed to fetch" || includes emsg "NetworkError" then connectMsgFetch
  else "Error fetching data: " ++ emsg

/-- Effect of `setLoading(true)`: the state while a network call is
outstanding (the first statement of the network phase of each handler). -/
def pendingState (s : AppState) : AppState := { s with loading := true }

/-- Function `fetchTransactions` (lines 30-55): sets loading, issues the GET, and
on success replaces the list; on any error sets the notice and clears
the list; the finally clears loading. Errors are caught here and never
propagate to the caller. -/
def fetchTransactions (s : AppState) (r : ListResp) : AppState :=
  let s1 : AppState := pendingState s
  match r with
  | .ok data => { s1 with transactions := data, loading := false }
  | .fail status body =>
    { s1 with message := fetchErrorMessage (httpErrorText status body),
              showMessage := true, transactions := [], loading := false }
  | .netErr m =>
    { s1 with message := fetchErrorMessage m,
              showMessage := true, transactions := [], loading := false }

/-! ## handleAddTransaction (App.jsx lines 65-111) -/

/-- The message thrown on a non-ok POST/DELETE response (lines 90, 123):
`errorData.error || \x60HTTP error! status: ${status}\x60` (a missing or
empty `error` field is falsy). -/
def mutThrowMsg (status : Nat) (errorField : Option String) : String :=
  match errorField with
  | some e => if e = "" then "HTTP error! status: " ++ toString status else e
  | none => "HTTP error! status: " ++ toString status

/-- The transport-failure notice of the add/delete handlers (lines 104, 134). -/
def connectMsgMut : String :=
  "Could not connect to the backend server at " ++ API_BASE_URL ++
    ". Please ensure your backend (server.js) is running."

/-- The catch block of `handleAddTransaction` (lines 100-107). -/
def addErrorMessage (emsg : String) : String :=
  if includes emsg "Failed to fetch" || includes emsg "NetworkError" then connectMsgMut
  else "Error adding transaction: " ++ emsg

/-- The catch block of `handleDeleteTransaction` (lines 130-137). -/
def deleteErrorMessage (emsg : String) : String :=
  if includes emsg "Failed to fetch" || includes emsg "NetworkError" then connectMsgMut
  else "Error deleting transaction: " ++ emsg

/-- The network phase of `handleAddTransaction` (lines 78-110), run once
validation has passed with the given request body. -/
def addNetworkPhase (s : AppState) (body : CreateBody) (mres : MutResp) (lres : ListResp) :
    AppState × List Request :=
  let s1 : AppState := pendingState s
  match mres with
  | .ok =>
    let s2 := fetchTransactions s1 lres
    ({ s2 with description := "", amount := "", type := "expense",
               message := "Transaction added successfully!", showMessage := true,
               loading := false },
     [Request.create body, Request.list s.userId])
  | .fail status errorField =>
    ({ s1 with message := addErrorMessage (mutThrowMsg status errorField),
               showMessage := true, loading := false },
     [Request.create body])
  | .netErr m =>
    ({ s1 with message := addErrorMessage m, showMessage := true, loading := false },
     [Request.create body])

/-- Handler `handleAddTransaction` (lines 65-111). The two leading guards reject
locally: blank trimmed description or empty amount string first, then a
non-parseable or non-positive `parseFloat` result. -/
def handleAddTransaction (s : AppState) (mres : MutResp) (lres : ListResp) :
    AppState × List Request :=
  if jsTrim s.description = "" ∨ s.amount = "" then
    ({ s with message := "Please enter both description and amount.", showMessage := true }, [])
  else
    match jsParseFloat s.amount with
    | none =>
      ({ s with message := "Please enter a valid positive amount.", showMessage := true }, [])
    | some numAmount =>
      if numAmount ≤ 0 then
        ({ s with message := "Please enter a valid positive amount.", showMessage := true }, [])
      else
        addNetworkPhase s ⟨jsTrim s.description, numAmount, s.type, s.userId⟩ mres lres

/-- The creation body `handleAddTransaction` would send, `none` when the
input is rejected locally. -/
def addBody (s : AppState) : Option CreateBody :=
  if jsTrim s.description = "" ∨ s.amount = "" then none
  else
    match jsParseFloat s.amount with
    | none => none
    | some numAmount =>
      if numAmount ≤ 0 then none
      else some ⟨jsTrim s.description, numAmount, s.type, s.userId⟩

/-! ## handleDeleteTransaction (App.jsx lines 114-141) -/

/-- Handler `handleDeleteTransaction` (lines 114-141). -/
def handleDeleteTransaction (s : AppState) (id : Nat) (mres : MutResp) (lres : ListResp) :
    AppState × List Request :=
  let s1 : AppState := pendingState s
  match mres with
  | .ok =>
    let s2 := fetchTransactions s1 lres
    ({ s2 with message := "Transaction deleted successfully!", showMessage := true,
               loading := false },
     [Request.remove id, Request.list s.userId])
  | .fail status errorField =>
    ({ s1 with message := deleteErrorMessage (mutThrowMsg status errorField),
               showMessage := true, loading := false },
     [Request.remove id])
  | .netErr m =>
    ({ s1 with message := deleteErrorMessage m, showMessage := true, loading := false },
     [Request.remove id])

/-! ## Aggregates (App.jsx lines 144-152) -/

/-- Aggregate `totalIncome` (lines 144-146): filter on type income, reduce `+` from 0. -/
def totalIncome (ts : List Transaction) : ℚ :=
  (ts.filter fun t => t.type == "income").foldl (fun sum t => sum + t.amount) 0

/-- Aggregate `totalExpenses` (lines 148-150). -/
def totalExpenses (ts : List Transaction) : ℚ :=
  (ts.filter fun t => t.type == "expense").foldl (fun sum t => sum + t.amount) 0

/-- Aggregate `balance` (line 152). -/
def balance (ts : List Transaction) : ℚ := totalIncome ts - totalExpenses ts

/-! ## Render-level facts -/

/-- The Add Transaction button's `disabled={loading}` attribute (line 236). -/
def addButtonDisabled (s : AppState) : Bool := s.loading

/-- The per-row delete button's `disabled={loading}` attribute (line 297). -/
def deleteButtonDisabled (s : AppState) : Bool := s.loading

/-! ## Identity Provisioner (App.jsx lines 13-23) -/

/-- Durable local storage, one string value per key. -/
def Store := List (String × String)

/-- Model of `localStorage.getItem`. -/
def storeGet (st : Store) (k : String) : Option String :=
  (st.find? fun p => p.1 == k).map Prod.snd

/-- Model of `localStorage.setItem` (overwrites any previous value for the key). -/
def storeSet (st : Store) (k v : String) : Store :=
  (k, v) :: st.filter fun p => p.1 != k

/-- The fixed storage key (line 16). -/
def financeAppUserIdKey : String := "financeAppUserId"

/-- The synthesized identifier (line 20):
`user_${Date.now()}_${Math.random().toString(36).substring(2, 9)}`. -/
def mintUserId (now : Nat) (rand : String) : String :=
  "user_" ++ toString now ++ "_" ++ rand

/-- The `useState` initializer for `userId` (lines 13-23): return the
stored identifier if present, else mint, store and return a new one. -/
def initUserId (st : Store) (now : Nat) (rand : String) : String × Store :=
  match storeGet st financeAppUserIdKey with
  | some storedUserId => (storedUserId, st)
  | none =>
    let newUserId := mintUserId now rand
    (newUserId, storeSet st financeAppUserIdKey newUserId)

/-- Returned identifiers over a sequence of initializations, threading
the store. -/
def initUserIdRuns (st : Store) : List (Nat × String) → List String
  | [] => []
  | (n, r) :: rest =>
    let (id1, st1) := initUserId st n r
    id1 :: initUserIdRuns st1 rest

/-! ## Server model (for the Add-then-List round trip)

Modelled from the spec: the remote transaction storage API is not part
of this repository (spec §1 lists it as an out-of-scope external
collaborator); §6 gives its contract only. `POST /api/transactions`
persists the submitted fields and assigns an id; `GET
/api/transactions/{userId}` returns that user's transactions. -/

structure ServerState where
  transactions : List Transaction
  nextId : Nat
deriving DecidableEq, Repr

/-- Modelled from the spec: `POST /api/transactions` creates a
Transaction from the submitted body, with a server-assigned id and
timestamp (spec §3, §6). -/
def serverCreate (srv : ServerState) (body : CreateBody) (ts : Nat) : ServerState :=
  { transactions :=
      srv.transactions ++
        [⟨srv.nextId, body.description, body.amount, body.type, body.userId, ts⟩],
    nextId := srv.nextId + 1 }

/-- Modelled from the spec: `GET /api/transactions/{userId}` returns the
array of the user's transactions (spec §6). -/
def serverList (srv : ServerState) (userId : String) : List Transaction :=
  srv.transactions.filter fun t => t.userId == userId

/-! ## Helper lemmas -/

/-- Folding `+` of a projected field from any start equals start plus the
sum of the projections. -/
lemma foldl_add_amount (l : List Transaction) (a : ℚ) :
    l.foldl (fun sum t => sum + t.amount) a = a + (l.map Transaction.amount).sum := by
  induction l generalizing a with
  | nil => simp
  | cons t ts ih => simp [List.foldl_cons, ih, add_assoc]

/-- A passing validation determines the network phase: with
`addBody s = some b`, the handler is exactly the network phase run on `b`. -/
lemma handleAdd_of_addBody {s : AppState} {b : CreateBody} (hb : addBody s = some b)
    (mres : MutResp) (lres : ListResp) :
    handleAddTransaction s mres lres = addNetworkPhase s b mres lres := by
  by_cases hd : jsTrim s.description = "" ∨ s.amount = ""
  · simp [addBody, hd] at hb
  · cases hp : jsParseFloat s.amount with
    | none => simp [addBody, hd, hp] at hb
    | some q =>
      by_cases hq : q ≤ 0
      · simp [addBody, hd, hp, hq] at hb
      · have hb' : CreateBody.mk (jsTrim s.description) q s.type s.userId = b := by
          simpa [addBody, hd, hp, hq] using hb
        simp [handleAddTransaction, hd, hp, hq, hb']

/-- The fields of a passing creation body in terms of the submitted
form state. -/
lemma addBody_eq {s : AppState} {b : CreateBody} (hb : addBody s = some b) :
    b.description = jsTrim s.description ∧ jsParseFloat s.amount = some b.amount ∧
    0 < b.amount ∧ b.type = s.type ∧ b.userId = s.userId := by
  by_cases hd : jsTrim s.description = "" ∨ s.amount = ""
  · simp [addBody, hd] at hb
  · cases hp : jsParseFloat s.amount with
    | none => simp [addBody, hd, hp] at hb
    | some q =>
      by_cases hq : q ≤ 0
      · simp [addBody, hd, hp, hq] at hb
      · have hb' : CreateBody.mk (jsTrim s.description) q s.type s.userId = b := by
          simpa [addBody, hd, hp, hq] using hb
        subst hb'
        exact ⟨rfl, by simp [hp], lt_of_not_le hq, rfl, rfl⟩

/-- A pattern that starts the scanned list is found. -/
lemma leadsWith_self_append (p rest : List Char) : leadsWith p (p ++ rest) = true := by
  induction p with
  | nil => rfl
  | cons c cs ih => simp [leadsWith, ih]

/-- Search `hasSub` succeeds at the front. -/
lemma hasSub_of_leadsWith {p s : List Char} (h : leadsWith p s = true) :
    hasSub p s = true := by
  cases s with
  | nil =>
    cases p with
    | nil => rfl
    | cons c cs => simp [leadsWith] at h
  | cons c cs => simp [hasSub, h]

/-- Search `hasSub` is preserved by extending the scanned list on the left. -/
lemma hasSub_mono (pre l p : List Char) (h : hasSub p l = true) :
    hasSub p (pre ++ l) = true := by
  induction pre with
  | nil => simpa using h
  | cons c cs ih => simp [hasSub, ih]

/-- JS `includes`: a string contains any suffix of itself. -/
lemma includes_append_right (x y : String) : includes (x ++ y) y = true := by
  unfold includes
  rw [String.data_append]
  exact hasSub_mono x.data y.data y.data
    (hasSub_of_leadsWith (by simpa using leadsWith_self_append y.data []))

/-- Strings with different first characters differ. -/
lemma ne_of_data_head {a b : String} (h : a.data.head? ≠ b.data.head?) : a ≠ b :=
  fun he => h (by rw [he])

/-- A failing validation makes the handler a pure local reject: no
request, list and loading flag untouched. -/
lemma handleAdd_reject {s : AppState} (hnb : addBody s = none) (mres : MutResp)
    (lres : ListResp) :
    (handleAddTransaction s mres lres).1.transactions = s.transactions ∧
    (handleAddTransaction s mres lres).2 = [] ∧
    (handleAddTransaction s mres lres).1.loading = s.loading := by
  by_cases hd : jsTrim s.description = "" ∨ s.amount = ""
  · simp [handleAddTransaction, hd]
  · cases hp : jsParseFloat s.amount with
    | none => simp [handleAddTransaction, hd, hp]
    | some q =>
      by_cases hq : q ≤ 0
      · simp [handleAddTransaction, hd, hp, hq]
      · simp [addBody, hd, hp, hq] at hnb

/-- Concrete valid form input used by witnesses: description " Books ",
amount "12.5", type income — validation passes with the trimmed
description and the parsed amount 25/2. -/
lemma addBody_concrete :
    addBody ⟨" Books ", "12.5", "income", [], false, "", false, "u1"⟩ =
      some ⟨"Books", 25/2, "income", "u1"⟩ := by
  have haux : jsParseFloatAux "12.5" = some ⟨1, 12, 5, 1, 0⟩ := by decide
  have hp : jsParseFloat "12.5" = some (25/2 : ℚ) := by
    rw [jsParseFloat, haux]
    norm_num [ParsedNum.toRat]
  have hd : ¬(jsTrim " Books " = "" ∨ ("12.5" : String) = "") := by decide
  have htrim : jsTrim " Books " = "Books" := by decide
  rw [addBody]
  simp only [hd, if_false, if_neg hd]
  rw [hp]
  norm_num [htrim]

/-- Two strings differ when one starts with a character the other does
not (compared through a left factor of the second). -/
lemma connect_ne (msg pre e : String) (c d : Char) (hm : msg.data.head? = some c)
    (hp : pre.data.head? = some d) (hcd : c ≠ d) : msg ≠ pre ++ e := by
  intro hc
  have hd : msg.data.head? = (pre ++ e).data.head? := by rw [hc]
  have hpe : pre.data ≠ [] := by
    intro h0
    rw [h0] at hp
    simp at hp
  rw [hm, String.data_append, List.head?_append_of_ne_nil pre.data hpe, hp] at hd
  exact hcd (Option.some.inj hd)

/-- Reading back the key just written. -/
lemma storeGet_storeSet (st : Store) (k v : String) :
    storeGet (storeSet st k v) k = some v := by
  simp [storeGet, storeSet, List.find?]

/-- When the key is present, initialization returns the stored value and
leaves the store unchanged. -/
lemma initUserId_of_get {st : Store} {v : String} (n : Nat) (r : String)
    (h : storeGet st financeAppUserIdKey = some v) :
    initUserId st n r = (v, st) := by
  simp [initUserId, h]

/-- After any initialization the store maps the key to the returned id. -/
lemma initUserId_get_self (st : Store) (n : Nat) (r : String) :
    storeGet (initUserId st n r).2 financeAppUserIdKey = some (initUserId st n r).1 := by
  unfold initUserId
  cases h : storeGet st financeAppUserIdKey with
  | some v => simpa using h
  | none => simp [storeGet_storeSet]

/-- From a store already holding `v`, every initialization returns `v`. -/
lemma initUserIdRuns_const {st : Store} {v : String}
    (h : storeGet st financeAppUserIdKey = some v) :
    ∀ runs : List (Nat × String), initUserIdRuns st runs = runs.map fun _ => v := by
  intro runs
  induction runs with
  | nil => rfl
  | cons p rest ih =>
    obtain ⟨n, r⟩ := p
    simp [initUserIdRuns, initUserId_of_get n r h, ih]

end FinanceApp

open FinanceApp

/-- C6: Identity Provisioner initialization is idempotent over the
durable store: a present entry is returned unchanged; an absent one
leads to a minted identifier being stored under the fixed key and
returned; and after a first initialization, every later initialization
returns the same identifier with the store unchanged. -/
theorem userId_init_idempotent :
    (∀ (st : Store) (v : String) (n : Nat) (r : String),
        storeGet st financeAppUserIdKey = some v → initUserId st n r = (v, st)) ∧
    (∀ (st : Store) (n : Nat) (r : String),
        storeGet st financeAppUserIdKey = none →
          initUserId st n r =
            (mintUserId n r, storeSet st financeAppUserIdKey (mintUserId n r)) ∧
          storeGet (initUserId st n r).2 financeAppUserIdKey = some (mintUserId n r)) ∧
    (∀ (st : Store) (n : Nat) (r : String) (runs : List (Nat × String)),
        initUserIdRuns (initUserId st n r).2 runs =
          runs.map fun _ => (initUserId st n r).1) := by
  refine ⟨fun st v n r h => initUserId_of_get n r h, fun st n r h => ?_, fun st n r runs => ?_⟩
  · constructor
    · simp [initUserId, h]
    · simp [initUserId, h, storeGet_storeSet]
  · exact initUserIdRuns_const (initUserId_get_self st n r) runs

/-- C2: whenever the trimmed description is blank or the amount does not
parse to a positive number, Add issues no network request, leaves the
transaction list unchanged, and surfaces one of the two validation
messages; with a non-blank description and amount "-5" the message is
exactly "Please enter a valid positive amount.". -/
theorem add_local_validation (s : AppState) (mres : MutResp) (lres : ListResp)
    (h : jsTrim s.description = "" ∨ ∀ q, jsParseFloat s.amount = some q → q ≤ 0) :
    ((handleAddTransaction s mres lres).2 = [] ∧
     (handleAddTransaction s mres lres).1.transactions = s.transactions ∧
     (handleAddTransaction s mres lres).1.showMessage = true ∧
     ((handleAddTransaction s mres lres).1.message =
        "Please enter both description and amount." ∨
      (handleAddTransaction s mres lres).1.message =
        "Please enter a valid positive amount.")) ∧
    (s.amount = "-5" → jsTrim s.description ≠ "" →
      (handleAddTransaction s mres lres).1.message =
        "Please enter a valid positive amount.") := by
  have neg5 : jsParseFloat "-5" = some (ParsedNum.toRat ⟨-1, 5, 0, 0, 0⟩) := by
    have : jsParseFloatAux "-5" = some ⟨-1, 5, 0, 0, 0⟩ := by decide
    simp [jsParseFloat, this]
  constructor
  · by_cases hd : jsTrim s.description = "" ∨ s.amount = ""
    · simp [handleAddTransaction, hd]
    · push_neg at hd
      rcases h with h | h
      · exact absurd h hd.1
      · cases hp : jsParseFloat s.amount with
        | none => simp [handleAddTransaction, hd.1, hd.2, hp]
        | some q =>
          have hq : q ≤ 0 := h q hp
          simp [handleAddTransaction, hd.1, hd.2, hp, hq]
  · intro ha hdesc
    have hq : ParsedNum.toRat ⟨-1, 5, 0, 0, 0⟩ ≤ 0 := by
      norm_num [ParsedNum.toRat]
    simp only [handleAddTransaction]
    rw [ha, neg5]
    simp [hdesc, hq]

/-- Witness for C2 at a concrete input: description "Books",
amount "-5" — no request, list unchanged, the exact validation
message. -/
theorem add_local_validation_witness :
    (handleAddTransaction ⟨"Books", "-5", "expense", [], false, "", false, "u1"⟩
        MutResp.ok (ListResp.ok [])).2 = [] ∧
    (handleAddTransaction ⟨"Books", "-5", "expense", [], false, "", false, "u1"⟩
        MutResp.ok (ListResp.ok [])).1.transactions = [] ∧
    (handleAddTransaction ⟨"Books", "-5", "expense", [], false, "", false, "u1"⟩
        MutResp.ok (ListResp.ok [])).1.message =
      "Please enter a valid positive amount." := by
  have neg5 : jsParseFloat "-5" = some (ParsedNum.toRat ⟨-1, 5, 0, 0, 0⟩) := by
    have : jsParseFloatAux "-5" = some ⟨-1, 5, 0, 0, 0⟩ := by decide
    simp [jsParseFloat, this]
  have H := add_local_validation ⟨"Books", "-5", "expense", [], false, "", false, "u1"⟩
    MutResp.ok (ListResp.ok [])
    (Or.inr fun q hq => by
      rw [neg5] at hq
      cases hq
      norm_num [ParsedNum.toRat])
  exact ⟨H.1.1, H.1.2.1, H.2 rfl (by decide)⟩

/-- C3: for every valid input, a successful Add against the modelled
server followed by the List refresh displays the previous user-scoped
list plus exactly one additional entry whose fields are the submitted
trimmed description, parsed amount, and type, under the current user. -/
theorem add_then_list_appends (s : AppState) (srv : ServerState) (b : CreateBody) (ts : Nat)
    (hb : addBody s = some b) :
    (handleAddTransaction s MutResp.ok
        (ListResp.ok (serverList (serverCreate srv b ts) s.userId))).1.transactions =
      serverList srv s.userId ++
        [⟨srv.nextId, jsTrim s.description, b.amount, s.type, s.userId, ts⟩] ∧
    jsParseFloat s.amount = some b.amount ∧ 0 < b.amount := by
  obtain ⟨hdesc, hparse, hpos, htype, huid⟩ := addBody_eq hb
  refine ⟨?_, hparse, hpos⟩
  rw [handleAdd_of_addBody hb]
  simp [addNetworkPhase, fetchTransactions, pendingState, serverList, serverCreate,
    List.filter_append, huid, hdesc, htype]

/-- C5: for every valid input whose creation request succeeds, Add
issues the creation then the List refresh, resets the inputs to their
defaults, shows the success confirmation, and displays exactly the
refreshed server-acknowledged list. -/
theorem add_success_flow (s : AppState) (b : CreateBody) (lres : ListResp)
    (hb : addBody s = some b) :
    (handleAddTransaction s MutResp.ok lres).2 =
      [Request.create b, Request.list s.userId] ∧
    (handleAddTransaction s MutResp.ok lres).1.description = "" ∧
    (handleAddTransaction s MutResp.ok lres).1.amount = "" ∧
    (handleAddTransaction s MutResp.ok lres).1.type = "expense" ∧
    (handleAddTransaction s MutResp.ok lres).1.message = "Transaction added successfully!" ∧
    (handleAddTransaction s MutResp.ok lres).1.showMessage = true ∧
    ∀ data, lres = ListResp.ok data →
      (handleAddTransaction s MutResp.ok lres).1.transactions = data := by
  rw [handleAdd_of_addBody hb]
  refine ⟨rfl, rfl, rfl, rfl, rfl, rfl, ?_⟩
  rintro data rfl
  simp [addNetworkPhase, fetchTransactions, pendingState]

/-- C9: when the mutating request succeeds but the List refresh fails,
the refresh's error notice is overwritten by the success confirmation,
the list is left empty (the refresh cleared it and swallowed its own
error), and for Add the inputs are still reset. -/
theorem refresh_failure_overwritten (s : AppState) (b : CreateBody) (lres : ListResp)
    (hb : addBody s = some b) (hf : lres.failed = true) :
    ((handleAddTransaction s MutResp.ok lres).1.message =
       "Transaction added successfully!" ∧
     (handleAddTransaction s MutResp.ok lres).1.showMessage = true ∧
     (handleAddTransaction s MutResp.ok lres).1.transactions = [] ∧
     (handleAddTransaction s MutResp.ok lres).1.description = "" ∧
     (handleAddTransaction s MutResp.ok lres).1.amount = "" ∧
     (handleAddTransaction s MutResp.ok lres).1.type = "expense") ∧
    (∀ (t : AppState) (id : Nat),
      (handleDeleteTransaction t id MutResp.ok lres).1.message =
        "Transaction deleted successfully!" ∧
      (handleDeleteTransaction t id MutResp.ok lres).1.showMessage = true ∧
      (handleDeleteTransaction t id MutResp.ok lres).1.transactions = []) := by
  rw [handleAdd_of_addBody hb]
  cases lres with
  | ok data => simp [ListResp.failed] at hf
  | fail status body =>
    exact ⟨by simp [addNetworkPhase, fetchTransactions, pendingState],
      fun t id => by simp [handleDeleteTransaction, fetchTransactions, pendingState]⟩
  | netErr m =>
    exact ⟨by simp [addNetworkPhase, fetchTransactions, pendingState],
      fun t id => by simp [handleDeleteTransaction, fetchTransactions, pendingState]⟩

/-- C10: when the mutating request itself fails (non-2xx or transport),
the in-memory list is unchanged and no List refresh is issued, for both
Add and Delete. -/
theorem mutation_failure_preserves_list (s : AppState) (id : Nat) (mres : MutResp)
    (lres : ListResp) (hm : mres ≠ MutResp.ok) :
    ((handleAddTransaction s mres lres).1.transactions = s.transactions ∧
     ∀ uid, Request.list uid ∉ (handleAddTransaction s mres lres).2) ∧
    ((handleDeleteTransaction s id mres lres).1.transactions = s.transactions ∧
     ∀ uid, Request.list uid ∉ (handleDeleteTransaction s id mres lres).2) := by
  cases hb : addBody s with
  | none =>
    obtain ⟨ht, hr, _⟩ := handleAdd_reject hb mres lres
    cases mres with
    | ok => exact absurd rfl hm
    | fail status ef =>
      exact ⟨⟨ht, by simp [hr]⟩, by simp [handleDeleteTransaction, pendingState]⟩
    | netErr m =>
      exact ⟨⟨ht, by simp [hr]⟩, by simp [handleDeleteTransaction, pendingState]⟩
  | some b =>
    rw [handleAdd_of_addBody hb]
    cases mres with
    | ok => exact absurd rfl hm
    | fail status ef =>
      exact ⟨by simp [addNetworkPhase, pendingState],
        by simp [handleDeleteTransaction, pendingState]⟩
    | netErr m =>
      exact ⟨by simp [addNetworkPhase, pendingState],
        by simp [handleDeleteTransaction, pendingState]⟩

/-- C4 (amended): every non-2xx List response clears the in-memory
list and shows a notice; when the constructed error message does not
contain the transport-failure marker substrings, that notice embeds the
server-provided body text; on success the list is replaced verbatim. -/
theorem list_error_surfacing (s : AppState) (status : Nat) (body : String) :
    (fetchTransactions s (ListResp.fail status body)).transactions = [] ∧
    (fetchTransactions s (ListResp.fail status body)).showMessage = true ∧
    ((includes (httpErrorText status body) "Failed to fetch" ||
      includes (httpErrorText status body) "NetworkError") = false →
      (fetchTransactions s (ListResp.fail status body)).message =
        "Error fetching data: " ++ httpErrorText status body ∧
      (body ≠ "" →
        includes (fetchTransactions s (ListResp.fail status body)).message body = true)) ∧
    (∀ s' data, (fetchTransactions s' (ListResp.ok data)).transactions = data) := by
  refine ⟨by simp [fetchTransactions, pendingState],
    by simp [fetchTransactions, pendingState], fun hmk => ?_,
    fun s' data => by simp [fetchTransactions, pendingState]⟩
  have hmsg : (fetchTransactions s (ListResp.fail status body)).message =
      "Error fetching data: " ++ httpErrorText status body := by
    simp [fetchTransactions, pendingState, fetchErrorMessage, hmk]
  refine ⟨hmsg, fun hbody => ?_⟩
  rw [hmsg, httpErrorText, if_neg hbody]
  have : "Error fetching data: " ++
      ("HTTP error! Status: " ++ toString status ++ ". Message: " ++ body) =
      ("Error fetching data: " ++
        ("HTTP error! Status: " ++ toString status ++ ". Message: ")) ++ body := by
    simp [String.append_assoc]
  rw [this]
  exact includes_append_right _ body

/-- C4 counterexample: an HTTP 500 List response whose body is the
literal text "Failed to fetch" is mis-classified as a transport
failure; the displayed notice contains neither the server-provided body
text nor the generic HTTP status text. -/
theorem list_error_counterexample :
    (fetchTransactions ⟨"", "", "expense", [], false, "", false, "u1"⟩
        (ListResp.fail 500 "Failed to fetch")).message = connectMsgFetch ∧
    includes (fetchTransactions ⟨"", "", "expense", [], false, "", false, "u1"⟩
        (ListResp.fail 500 "Failed to fetch")).message "Failed to fetch" = false ∧
    includes (fetchTransactions ⟨"", "", "expense", [], false, "", false, "u1"⟩
        (ListResp.fail 500 "Failed to fetch")).message "Status: 500" = false ∧
    (fetchTransactions ⟨"", "", "expense", [], false, "", false, "u1"⟩
        (ListResp.fail 500 "Failed to fetch")).transactions = [] := by
  refine ⟨?_, by decide, by decide, by decide⟩
  have hmk : (includes (httpErrorText 500 "Failed to fetch") "Failed to fetch" ||
      includes (httpErrorText 500 "Failed to fetch") "NetworkError") = true := by decide
  simp [fetchTransactions, pendingState, fetchErrorMessage, hmk]

/-- Witness for C4's amended theorem: the spec's own scenario, HTTP 500
with body `{"error":"db down"}` — the notice contains "db down" and the
list becomes empty. -/
theorem list_error_surfacing_witness :
    includes (fetchTransactions ⟨"", "", "expense",
        [⟨1, "Rent", 40, "expense", "u1", 0⟩], false, "", false, "u1"⟩
        (ListResp.fail 500 "\x7b\"error\":\"db down\"\x7d")).message
      "\x7b\"error\":\"db down\"\x7d" = true ∧
    includes (fetchTransactions ⟨"", "", "expense",
        [⟨1, "Rent", 40, "expense", "u1", 0⟩], false, "", false, "u1"⟩
        (ListResp.fail 500 "\x7b\"error\":\"db down\"\x7d")).message "db down" = true ∧
    (fetchTransactions ⟨"", "", "expense",
        [⟨1, "Rent", 40, "expense", "u1", 0⟩], false, "", false, "u1"⟩
        (ListResp.fail 500 "\x7b\"error\":\"db down\"\x7d")).transactions = [] := by
  have H := list_error_surfacing
    ⟨"", "", "expense", [⟨1, "Rent", 40, "expense", "u1", 0⟩], false, "", false, "u1"⟩
    500 "\x7b\"error\":\"db down\"\x7d"
  have hM := H.2.2.1 (by decide)
  refine ⟨hM.2 (by decide), ?_, H.1⟩
  rw [hM.1]
  decide

/-- C7: while a call is outstanding the state has `loading = true`, so
both submission controls are disabled (excluding a second concurrent
mutating request); and every completed operation — success or failure —
ends with `loading = false`, an interactive idle state. -/
theorem pending_disables_and_completes (s : AppState) (id : Nat) (mres : MutResp)
    (lres : ListResp) (hidle : s.loading = false) :
    (∀ t : AppState, t.loading = true →
        addButtonDisabled t = true ∧ deleteButtonDisabled t = true) ∧
    (pendingState s).loading = true ∧
    (handleAddTransaction s mres lres).1.loading = false ∧
    (handleDeleteTransaction s id mres lres).1.loading = false ∧
    (∀ r, (fetchTransactions s r).loading = false) := by
  refine ⟨fun t ht => ⟨ht, ht⟩, rfl, ?_, ?_, ?_⟩
  · cases hb : addBody s with
    | none => rw [(handleAdd_reject hb mres lres).2.2]; exact hidle
    | some b =>
      rw [handleAdd_of_addBody hb]
      cases mres with
      | ok => cases lres <;> simp [addNetworkPhase, fetchTransactions, pendingState]
      | fail status ef => simp [addNetworkPhase, pendingState]
      | netErr m => simp [addNetworkPhase, pendingState]
  · cases mres <;> cases lres <;>
      simp [handleDeleteTransaction, fetchTransactions, pendingState]
  · intro r
    cases r <;> simp [fetchTransactions, pendingState]

/-- Witness for C7 at concrete inputs: from an idle state, the pending
state is disabled and both handlers return to idle. -/
theorem pending_disables_and_completes_witness :
    (pendingState ⟨"", "", "expense", [], false, "", false, "u1"⟩).loading = true ∧
    addButtonDisabled (pendingState ⟨"", "", "expense", [], false, "", false, "u1"⟩) = true ∧
    (handleAddTransaction ⟨"", "", "expense", [], false, "", false, "u1"⟩
        MutResp.ok (ListResp.ok [])).1.loading = false ∧
    (handleDeleteTransaction ⟨"", "", "expense", [], false, "", false, "u1"⟩ 1
        MutResp.ok (ListResp.ok [])).1.loading = false := by
  have H := pending_disables_and_completes ⟨"", "", "expense", [], false, "", false, "u1"⟩
    1 MutResp.ok (ListResp.ok []) rfl
  exact ⟨H.2.1, (H.1 _ H.2.1).1, H.2.2.1, H.2.2.2.1⟩

/-- C8 counterexample: a transport failure whose rejection message is
"Load failed" (the text Safari uses, carrying neither marker substring
the code tests for) is surfaced as the ordinary operation-error notice
— not a distinguished message, and not naming the expected server
location — for List and likewise for Delete. -/
theorem transport_failure_counterexample :
    (fetchTransactions ⟨"", "", "expense", [], false, "", false, "u1"⟩
        (ListResp.netErr "Load failed")).message =
      "Error fetching data: Load failed" ∧
    includes (fetchTransactions ⟨"", "", "expense", [], false, "", false, "u1"⟩
        (ListResp.netErr "Load failed")).message "http://localhost:5000/api" = false ∧
    (handleDeleteTransaction ⟨"", "", "expense", [], false, "", false, "u1"⟩ 1
        (MutResp.netErr "Load failed") (ListResp.ok [])).1.message =
      "Error deleting transaction: Load failed" := by
  refine ⟨by decide, by decide, by decide⟩

/-- C8 (amended): a transport failure during List, Add, or Delete whose
failure message carries the "Failed to fetch" or "NetworkError" marker
the code tests for surfaces the distinguished could-not-connect notice,
which names the expected server location and differs from every
server-error notice of the corresponding operation. -/
theorem transport_failure_message (s : AppState) (b : CreateBody) (id : Nat) (m : String)
    (lres : ListResp) (hb : addBody s = some b)
    (hm : (includes m "Failed to fetch" || includes m "NetworkError") = true) :
    (fetchTransactions s (ListResp.netErr m)).message = connectMsgFetch ∧
    (handleAddTransaction s (MutResp.netErr m) lres).1.message = connectMsgMut ∧
    (handleDeleteTransaction s id (MutResp.netErr m) lres).1.message = connectMsgMut ∧
    includes connectMsgFetch API_BASE_URL = true ∧
    includes connectMsgMut API_BASE_URL = true ∧
    (∀ e : String,
      connectMsgFetch ≠ "Error fetching data: " ++ e ∧
      connectMsgMut ≠ "Error adding transaction: " ++ e ∧
      connectMsgMut ≠ "Error deleting transaction: " ++ e) := by
  refine ⟨by simp [fetchTransactions, pendingState, fetchErrorMessage, hm], ?_,
    by simp [handleDeleteTransaction, pendingState, deleteErrorMessage, hm],
    by decide, by decide, fun e => ⟨?_, ?_, ?_⟩⟩
  · rw [handleAdd_of_addBody hb]
    simp [addNetworkPhase, pendingState, addErrorMessage, hm]
  · exact connect_ne _ _ e 'C' 'E' (by decide) (by decide) (by decide)
  · exact connect_ne _ _ e 'C' 'E' (by decide) (by decide) (by decide)
  · exact connect_ne _ _ e 'C' 'E' (by decide) (by decide) (by decide)

/-- Witness for C6 at concrete inputs: a pre-populated store is read
back unchanged, and after a fresh first initialization two further
initializations both return the first identifier. -/
theorem userId_init_idempotent_witness :
    initUserId [(financeAppUserIdKey, "user_1_aaa")] 7 "zzz" =
      ("user_1_aaa", [(financeAppUserIdKey, "user_1_aaa")]) ∧
    initUserIdRuns (initUserId [] 5 "abc").2 [(6, "q"), (7, "r")] =
      [(initUserId [] 5 "abc").1, (initUserId [] 5 "abc").1] := by
  constructor
  · exact userId_init_idempotent.1 _ "user_1_aaa" 7 "zzz" (by decide)
  · simpa using userId_init_idempotent.2.2 [] 5 "abc" [(6, "q"), (7, "r")]

/-- C1: for every in-memory transaction list, the displayed income total
equals the sum of the amounts of income transactions, the expense total
the sum over expense transactions, and the balance is exactly their
difference; all three are recomputed as pure functions of the current
list. -/
theorem aggregates_correct (ts : List Transaction) :
    totalIncome ts = ((ts.filter fun t => t.type == "income").map Transaction.amount).sum ∧
    totalExpenses ts = ((ts.filter fun t => t.type == "expense").map Transaction.amount).sum ∧
    balance ts = totalIncome ts - totalExpenses ts := by
  refine ⟨?_, ?_, rfl⟩ <;>
    simp [totalIncome, totalExpenses, foldl_add_amount]

/-- Witness for C3 at concrete inputs: adding income "12.5" for user
"u1" to a server holding one prior "u1" transaction displays a
two-element list ending in the new entry. -/
theorem add_then_list_appends_witness :
    (handleAddTransaction ⟨" Books ", "12.5", "income", [], false, "", false, "u1"⟩
        MutResp.ok
        (ListResp.ok (serverList (serverCreate ⟨[⟨1, "Rent", 40, "expense", "u1", 0⟩], 3⟩
            ⟨"Books", 25/2, "income", "u1"⟩ 9) "u1"))).1.transactions =
      [⟨1, "Rent", 40, "expense", "u1", 0⟩, ⟨3, "Books", 25/2, "income", "u1", 9⟩] := by
  have H := (add_then_list_appends
    ⟨" Books ", "12.5", "income", [], false, "", false, "u1"⟩
    ⟨[⟨1, "Rent", 40, "expense", "u1", 0⟩], 3⟩
    ⟨"Books", 25/2, "income", "u1"⟩ 9 addBody_concrete).1
  rw [H]
  have htrim : jsTrim " Books " = "Books" := by decide
  simp [serverList, htrim]

/-- Witness for C5 at concrete inputs: a valid Add whose creation and
refresh both succeed emits create-then-list, resets the form, and shows
the confirmation. -/
theorem add_success_flow_witness :
    (handleAddTransaction ⟨" Books ", "12.5", "income", [], false, "", false, "u1"⟩
        MutResp.ok (ListResp.ok [])).2 =
      [Request.create ⟨"Books", 25/2, "income", "u1"⟩, Request.list "u1"] ∧
    (handleAddTransaction ⟨" Books ", "12.5", "income", [], false, "", false, "u1"⟩
        MutResp.ok (ListResp.ok [])).1.description = "" ∧
    (handleAddTransaction ⟨" Books ", "12.5", "income", [], false, "", false, "u1"⟩
        MutResp.ok (ListResp.ok [])).1.amount = "" ∧
    (handleAddTransaction ⟨" Books ", "12.5", "income", [], false, "", false, "u1"⟩
        MutResp.ok (ListResp.ok [])).1.type = "expense" ∧
    (handleAddTransaction ⟨" Books ", "12.5", "income", [], false, "", false, "u1"⟩
        MutResp.ok (ListResp.ok [])).1.message = "Transaction added successfully!" ∧
    (handleAddTransaction ⟨" Books ", "12.5", "income", [], false, "", false, "u1"⟩
        MutResp.ok (ListResp.ok [])).1.transactions = [] := by
  have H := add_success_flow ⟨" Books ", "12.5", "income", [], false, "", false, "u1"⟩
    ⟨"Books", 25/2, "income", "u1"⟩ (ListResp.ok []) addBody_concrete
  exact ⟨H.1, H.2.1, H.2.2.1, H.2.2.2.1, H.2.2.2.2.1, H.2.2.2.2.2.2 [] rfl⟩

/-- Witness for C9 at concrete inputs: creation succeeds, refresh gets
an HTTP 500 — the success confirmation stands, the list is empty, the
form is reset. -/
theorem refresh_failure_overwritten_witness :
    (handleAddTransaction ⟨" Books ", "12.5", "income", [], false, "", false, "u1"⟩
        MutResp.ok (ListResp.fail 500 "boom")).1.message =
      "Transaction added successfully!" ∧
    (handleAddTransaction ⟨" Books ", "12.5", "income", [], false, "", false, "u1"⟩
        MutResp.ok (ListResp.fail 500 "boom")).1.transactions = [] ∧
    (handleAddTransaction ⟨" Books ", "12.5", "income", [], false, "", false, "u1"⟩
        MutResp.ok (ListResp.fail 500 "boom")).1.description = "" ∧
    (handleDeleteTransaction ⟨"", "", "expense", [⟨1, "Rent", 40, "expense", "u1", 0⟩],
        false, "", false, "u1"⟩ 1 MutResp.ok (ListResp.fail 500 "boom")).1.message =
      "Transaction deleted successfully!" := by
  have H := refresh_failure_overwritten
    ⟨" Books ", "12.5", "income", [], false, "", false, "u1"⟩
    ⟨"Books", 25/2, "income", "u1"⟩ (ListResp.fail 500 "boom") addBody_concrete rfl
  exact ⟨H.1.1, H.1.2.2.1, H.1.2.2.2.1,
    (H.2 ⟨"", "", "expense", [⟨1, "Rent", 40, "expense", "u1", 0⟩], false, "", false, "u1"⟩ 1).1⟩

/-- Witness for C10 at concrete inputs: a 500 on the mutating request
leaves the one-element list untouched and issues no List refresh. -/
theorem mutation_failure_preserves_list_witness :
    (handleAddTransaction ⟨" Books ", "12.5", "income",
        [⟨1, "Rent", 40, "expense", "u1", 0⟩], false, "", false, "u1"⟩
        (MutResp.fail 500 (some "db down")) (ListResp.ok [])).1.transactions =
      [⟨1, "Rent", 40, "expense", "u1", 0⟩] ∧
    Request.list "u1" ∉ (handleAddTransaction ⟨" Books ", "12.5", "income",
        [⟨1, "Rent", 40, "expense", "u1", 0⟩], false, "", false, "u1"⟩
        (MutResp.fail 500 (some "db down")) (ListResp.ok [])).2 ∧
    (handleDeleteTransaction ⟨" Books ", "12.5", "income",
        [⟨1, "Rent", 40, "expense", "u1", 0⟩], false, "", false, "u1"⟩ 1
        (MutResp.fail 500 (some "db down")) (ListResp.ok [])).1.transactions =
      [⟨1, "Rent", 40, "expense", "u1", 0⟩] := by
  have H := mutation_failure_preserves_list ⟨" Books ", "12.5", "income",
    [⟨1, "Rent", 40, "expense", "u1", 0⟩], false, "", false, "u1"⟩ 1
    (MutResp.fail 500 (some "db down")) (ListResp.ok []) (by simp)
  exact ⟨H.1.1, H.1.2 "u1", H.2.1⟩

/-- Witness for C8 at concrete inputs: a "Failed to fetch" transport
failure yields the could-not-connect notices, which name the server
location and differ from the server-error notices. -/
theorem transport_failure_message_witness :
    (fetchTransactions ⟨" Books ", "12.5", "income", [], false, "", false, "u1"⟩
        (ListResp.netErr "Failed to fetch")).message = connectMsgFetch ∧
    (handleAddTransaction ⟨" Books ", "12.5", "income", [], false, "", false, "u1"⟩
        (MutResp.netErr "Failed to fetch") (ListResp.ok [])).1.message = connectMsgMut ∧
    (handleDeleteTransaction ⟨" Books ", "12.5", "income", [], false, "", false, "u1"⟩ 1
        (MutResp.netErr "Failed to fetch") (ListResp.ok [])).1.message = connectMsgMut ∧
    includes connectMsgFetch API_BASE_URL = true ∧
    connectMsgFetch ≠ "Error fetching data: " ++ "Failed to fetch" := by
  have H := transport_failure_message
    ⟨" Books ", "12.5", "income", [], false, "", false, "u1"⟩
    ⟨"Books", 25/2, "income", "u1"⟩ 1 "Failed to fetch" (ListResp.ok [])
    addBody_concrete (by decide)
  exact ⟨H.1, H.2.1, H.2.2.1, H.2.2.2.1, (H.2.2.2.2.2 "Failed to fetch").1⟩
